import Mathlib

/-!
# Verification of the HF-CLI compiler driver

A shallow embedding of the two self-contained pieces of logic in the
HF-CLI sources — the target-triple resolver (`src/main.rs`,
`TargetTriplet::from_str`) and the diagnostic renderer / pipeline
orchestrator (`src/compile.rs`, `CompilationError::pretty_print` and
`compile`) — together with theorems settling the spec's claims about them.

Machine integers (`usize`) are modelled as `Nat`; the relevant arithmetic
(`saturating_sub`, `saturating_add`) coincides with truncated `Nat`
arithmetic.  Rust functions that can panic (`todo!()`, `.expect(...)`) are
modelled with an explicit `panicked` outcome.  External collaborator
services (tokenizer, parser, lowering, codegen, filesystem) are opaque to
this core and are passed in as an explicit environment.
-/

/-- Outcome of running a fallible Rust function: a normal `Ok`, a normal
`Err`, or an aborted execution (a panic, e.g. from `todo!()` or
`.expect(...)`) carrying the panic message. -/
inductive RustOutcome (ε α : Type) : Type where
  | ok (a : α)
  | err (e : ε)
  | panicked (msg : String)
deriving DecidableEq

/-- `Vec<&str> = s.split('-')` on the character list: Rust `str::split`
yields one (possibly empty) piece between every pair of separators, so the
empty string splits to `[""]` and `"-"` splits to `["", ""]`. -/
def splitChar (c : Char) : List Char → List (List Char)
  | [] => [[]]
  | x :: xs =>
    if x = c then [] :: splitChar c xs
    else
      match splitChar c xs with
      | [] => [[x]]
      | y :: ys => (x :: y) :: ys

/-- Rust `s.split(c).collect::<Vec<_>>()` lifted to `String`. -/
def rustSplit (c : Char) (s : String) : List String :=
  (splitChar c s.data).map (fun l => String.mk l)

/-- `enum ParseError` from `src/main.rs`. -/
inductive ParseError : Type where
  | InvalidTargetTriplet
  | UnknownTargetTripletHost
deriving DecidableEq

/-- `enum Arch` from the external `hf_codegen::target` module; the variant
list is determined by the closed match table in `TargetTriplet::from_str`. -/
inductive Arch : Type where
  | X86 | X86_64 | Wasm32 | Wasm64 | Aarch64 | RiscV | Mips | PowerPc
  | Sparc | Z390 | M68k | SpirV | RiscV32 | RiscV64 | RiscV128
deriving DecidableEq

/-- `enum Os` from the external `hf_codegen::target` module; the variant
list is determined by the closed match table in `TargetTriplet::from_str`. -/
inductive Os : Type where
  | Windows | Linux | Bsd | Solaris | Illumos | Haiku | Redox | Theseus
deriving DecidableEq

/-- The closed architecture lookup table of `TargetTriplet::from_str`
(`src/main.rs` lines 36-53), with the fallthrough arm returning `none`. -/
def archOfHost : String → Option Arch
  | "x86" => some .X86
  | "x86_64" => some .X86_64
  | "wasm32" => some .Wasm32
  | "wasm64" => some .Wasm64
  | "aarch64" => some .Aarch64
  | "riscv" => some .RiscV
  | "mips" => some .Mips
  | "powerpc" => some .PowerPc
  | "sparc" => some .Sparc
  | "z390" => some .Z390
  | "m68k" => some .M68k
  | "spirv" => some .SpirV
  | "riscv32" => some .RiscV32
  | "riscv64" => some .RiscV64
  | "riscv128" => some .RiscV128
  | _ => none

/-- The closed OS lookup table of `TargetTriplet::from_str`
(`src/main.rs` lines 55-65); unrecognized systems map to `none`. -/
def osOfSystem : String → Option Os
  | "windows" => some .Windows
  | "linux" => some .Linux
  | "bsd" => some .Bsd
  | "solaris" => some .Solaris
  | "illumos" => some .Illumos
  | "haiku" => some .Haiku
  | "redox" => some .Redox
  | "theseus" => some .Theseus
  | _ => none

/-- `Target::new(arch, calling_convention)` from `hf_codegen`.  The calling
convention type is external, so it is kept as a type parameter `κ`. -/
structure Target (κ : Type) : Type where
  arch : Arch
  callingConvention : κ
deriving DecidableEq

/-- `struct TargetTriplet \x7b target: Target \x7d` from `src/main.rs`. -/
structure TargetTriplet (κ : Type) : Type where
  target : Target κ
deriving DecidableEq

/-- `TargetTriplet::from_str` (`src/main.rs` lines 25-77).  The external
`CallingConvention::from_arch_os` is passed in as the abstract total
function `fromArchOs`.  The `todo!()` on the no-OS path (line 71) is the
`panicked` outcome with Rust's `todo!` message. -/
def fromStr (fromArchOs : Arch → Os → κ) (s : String) :
    RustOutcome ParseError (TargetTriplet κ) :=
  match rustSplit '-' s with
  | [host, _vendor, system] =>
    match archOfHost host with
    | none => .err .UnknownTargetTripletHost
    | some arch =>
      match osOfSystem system with
      | some os => .ok ⟨⟨arch, fromArchOs arch os⟩⟩
      | none => .panicked "not yet implemented"
  | _ => .err .InvalidTargetTriplet

/-- A stand-in concrete calling-convention assignment, used to instantiate
`fromStr` at closed inputs. -/
def ccPair : Arch → Os → Arch × Os := fun a o => (a, o)

theorem fromStr_eq_of_split (fromArchOs : Arch → Os → κ) (s : String)
    (host vendor system : String)
    (h : rustSplit '-' s = [host, vendor, system]) :
    fromStr fromArchOs s =
      (match archOfHost host with
       | none => .err .UnknownTargetTripletHost
       | some arch =>
         match osOfSystem system with
         | some os => .ok ⟨⟨arch, fromArchOs arch os⟩⟩
         | none => .panicked "not yet implemented") := by
  unfold fromStr
  rw [h]

/-- A split into a list of length ≠ 3 never matches the three-component
pattern of `fromStr`. -/
theorem fromStr_eq_of_split_ne_three (fromArchOs : Arch → Os → κ)
    (s : String) (h : (rustSplit '-' s).length ≠ 3) :
    fromStr fromArchOs s = .err .InvalidTargetTriplet := by
  unfold fromStr
  rcases hs : rustSplit '-' s with _ | ⟨a, _ | ⟨b, _ | ⟨c, _ | ⟨d, l⟩⟩⟩⟩ <;>
    simp_all

/-- C5: every input string that does not split on the dash character into
exactly 3 components makes resolution fail with `MalformedTriple`
(`ParseError::InvalidTargetTriplet`), whatever the component contents and
the calling-convention table. -/
theorem C5_malformed_triple (κ : Type) (fromArchOs : Arch → Os → κ)
    (s : String) (h : (rustSplit '-' s).length ≠ 3) :
    fromStr fromArchOs s = .err .InvalidTargetTriplet :=
  fromStr_eq_of_split_ne_three fromArchOs s h

/-- Witness for C5 at the claim's two example inputs, a 2-component and a
4-component string. -/
theorem C5_malformed_triple_witness :
    (rustSplit '-' "x86_64-linux").length ≠ 3 ∧
    (rustSplit '-' "a-b-c-d").length ≠ 3 ∧
    fromStr ccPair "x86_64-linux" = .err .InvalidTargetTriplet ∧
    fromStr ccPair "a-b-c-d" = .err .InvalidTargetTriplet :=
  ⟨by decide, by decide,
   C5_malformed_triple _ ccPair "x86_64-linux" (by decide),
   C5_malformed_triple _ ccPair "a-b-c-d" (by decide)⟩

/-- C4: every well-formed triple `<host>-<vendor>-<system>` whose host is in
the architecture table and whose system is in the OS table resolves
successfully to the table's architecture paired with the calling convention
computed by the fixed `from_arch_os` function on that (architecture, OS)
pair; in particular the four triples named by the claim resolve to
architectures X86_64, X86_64, X86, X86 with the OS-specific conventions. -/
theorem C4_wellformed_resolution (κ : Type) (fromArchOs : Arch → Os → κ) :
    (∀ (s host vendor system : String) (arch : Arch) (os : Os),
       rustSplit '-' s = [host, vendor, system] →
       archOfHost host = some arch →
       osOfSystem system = some os →
       fromStr fromArchOs s = .ok ⟨⟨arch, fromArchOs arch os⟩⟩) ∧
    fromStr fromArchOs "x86_64-unknown-linux" =
      .ok ⟨⟨.X86_64, fromArchOs .X86_64 .Linux⟩⟩ ∧
    fromStr fromArchOs "x86_64-unknown-windows" =
      .ok ⟨⟨.X86_64, fromArchOs .X86_64 .Windows⟩⟩ ∧
    fromStr fromArchOs "x86-unknown-linux" =
      .ok ⟨⟨.X86, fromArchOs .X86 .Linux⟩⟩ ∧
    fromStr fromArchOs "x86-unknown-windows" =
      .ok ⟨⟨.X86, fromArchOs .X86 .Windows⟩⟩ := by
  refine ⟨fun s host vendor system arch os hsplit harch hos => ?_, rfl, rfl, rfl, rfl⟩
  rw [fromStr_eq_of_split fromArchOs s host vendor system hsplit, harch, hos]

/-- Witness for C4, applying the universally quantified part at a concrete
triple not among the four listed ones. -/
theorem C4_wellformed_resolution_witness :
    rustSplit '-' "aarch64-unknown-bsd" = ["aarch64", "unknown", "bsd"] ∧
    archOfHost "aarch64" = some .Aarch64 ∧
    osOfSystem "bsd" = some .Bsd ∧
    fromStr ccPair "aarch64-unknown-bsd" =
      .ok ⟨⟨.Aarch64, ccPair .Aarch64 .Bsd⟩⟩ :=
  ⟨by decide, by decide, by decide,
   (C4_wellformed_resolution _ ccPair).1 "aarch64-unknown-bsd"
     "aarch64" "unknown" "bsd" .Aarch64 .Bsd (by decide) (by decide) (by decide)⟩

/-- C6: every 3-component input whose host component is not in the
architecture table fails with `UnknownArchitecture`
(`ParseError::UnknownTargetTripletHost`), regardless of the vendor and
system components. -/
theorem C6_unknown_architecture (κ : Type) (fromArchOs : Arch → Os → κ)
    (s host vendor system : String)
    (hsplit : rustSplit '-' s = [host, vendor, system])
    (harch : archOfHost host = none) :
    fromStr fromArchOs s = .err .UnknownTargetTripletHost := by
  rw [fromStr_eq_of_split fromArchOs s host vendor system hsplit, harch]

/-- Witness for C6 at the claim's example and at a triple whose system
component is also unrecognized. -/
theorem C6_unknown_architecture_witness :
    rustSplit '-' "bogus-unknown-linux" = ["bogus", "unknown", "linux"] ∧
    archOfHost "bogus" = none ∧
    rustSplit '-' "bogus-unknown-weirdos" = ["bogus", "unknown", "weirdos"] ∧
    osOfSystem "weirdos" = none ∧
    fromStr ccPair "bogus-unknown-linux" = .err .UnknownTargetTripletHost ∧
    fromStr ccPair "bogus-unknown-weirdos" = .err .UnknownTargetTripletHost :=
  ⟨by decide, by decide, by decide, by decide,
   C6_unknown_architecture _ ccPair "bogus-unknown-linux"
     "bogus" "unknown" "linux" (by decide) (by decide),
   C6_unknown_architecture _ ccPair "bogus-unknown-weirdos"
     "bogus" "unknown" "weirdos" (by decide) (by decide)⟩

/-- C7: two triples that differ only in the vendor component produce
identical resolution outcomes — the same error kind on failure, the same
architecture and calling convention on success, and even the same panic on
the unimplemented no-OS path. -/
theorem C7_vendor_irrelevant (κ : Type) (fromArchOs : Arch → Os → κ)
    (s₁ s₂ host v₁ v₂ system : String)
    (h₁ : rustSplit '-' s₁ = [host, v₁, system])
    (h₂ : rustSplit '-' s₂ = [host, v₂, system]) :
    fromStr fromArchOs s₁ = fromStr fromArchOs s₂ := by
  rw [fromStr_eq_of_split fromArchOs s₁ host v₁ system h₁,
    fromStr_eq_of_split fromArchOs s₂ host v₂ system h₂]

/-- Witness for C7 at two concrete triples differing only in the vendor. -/
theorem C7_vendor_irrelevant_witness :
    rustSplit '-' "x86_64-unknown-linux" = ["x86_64", "unknown", "linux"] ∧
    rustSplit '-' "x86_64-pc-linux" = ["x86_64", "pc", "linux"] ∧
    fromStr ccPair "x86_64-unknown-linux" = fromStr ccPair "x86_64-pc-linux" :=
  ⟨by decide, by decide,
   C7_vendor_irrelevant _ ccPair "x86_64-unknown-linux" "x86_64-pc-linux"
     "x86_64" "unknown" "pc" "linux" (by decide) (by decide)⟩

/-- C3: a known-architecture triple with a system outside the OS table does
not fail with a distinguishable `UnsupportedWithoutOs` error value — the
source reaches `todo!()` (`src/main.rs` line 71) and panics; `ParseError`
has no such variant at all, so no error result of that kind can be
returned to callers. -/
theorem C3_no_os_panics :
    fromStr ccPair "x86_64-unknown-bogusos" = .panicked "not yet implemented" ∧
    archOfHost "x86_64" = some .X86_64 ∧
    osOfSystem "bogusos" = none ∧
    ∀ e : ParseError, e = .InvalidTargetTriplet ∨ e = .UnknownTargetTripletHost := by
  refine ⟨rfl, rfl, rfl, fun e => ?_⟩
  cases e
  · exact Or.inl rfl
  · exact Or.inr rfl

/-! ## Diagnostic renderer (`src/compile.rs`, `CompilationError::pretty_print`) -/

/-- Strip one trailing carriage return, as Rust `str::lines` does on each
line. -/
def stripCR (l : List Char) : List Char :=
  if l.getLast? = some '\r' then l.dropLast else l

/-- Rust `code.lines().collect::<Vec<_>>()`: split at newline characters,
with a final line ending optional (a trailing newline does not produce a
trailing empty line) and a trailing `\r` stripped from each line; the empty
string yields no lines. -/
def rustLines (code : String) : List String :=
  if code.data = [] then []
  else
    let parts := splitChar '\n' code.data
    let parts := if code.data.getLast? = some '\n' then parts.dropLast else parts
    parts.map (fun l => String.mk (stripCR l))

/-- Rust `format!("\x7b:4\x7d", n)`: the decimal rendering of `n`
right-aligned in a field of width 4. -/
def padNum (n : Nat) : String :=
  let s := toString n
  String.mk (List.replicate (4 - s.length) ' ' ++ s.data)

/-- `let line_min = location.0.saturating_sub(2)` (`src/compile.rs`
line 67); `Nat` subtraction is saturating. -/
def lineMinOf (location : Nat × Nat) : Nat := location.1 - 2

/-- `let underline_line = location.0 + span_offset.0` (`src/compile.rs`
line 58). -/
def underlineLineOf (location spanOffset : Nat × Nat) : Nat :=
  location.1 + spanOffset.1

/-- `let underline_len = ...` (`src/compile.rs` lines 61-65): the full
`column + width` on a single-line span, the bare width otherwise. -/
def underlineLenOf (location spanOffset : Nat × Nat) : Nat :=
  if spanOffset.1 = 0 then location.2 + spanOffset.2 else spanOffset.2

/-- `let line_max = underline_line.saturating_add(3).min(lines.len())`
(`src/compile.rs` line 68). -/
def lineMaxOf (location spanOffset : Nat × Nat) (totalLines : Nat) : Nat :=
  min (underlineLineOf location spanOffset + 3) totalLines

/-- The underline emitted beneath the located line (`src/compile.rs` lines
87-91): `location.1` spaces followed by `underline_len` carets, printed
after the `"     | "` gutter. -/
def underlineStr (location spanOffset : Nat × Nat) : String :=
  "     | " ++ String.mk (List.replicate location.2 ' ' ++
    List.replicate (underlineLenOf location spanOffset) '^')

/-- The source-context block of `pretty_print` (`src/compile.rs` lines
56-93), modelled as the list of lines written to stderr: a header, a
1-based location line, then the window `[line_min, line_max)` of numbered
source lines with the underline inserted right after the line whose index
is `underline_line`. -/
def prettyPrintSrc (path code : String) (location spanOffset : Nat × Nat)
    (errFmt : String) : List String :=
  let lines := rustLines code
  let relevantLines :=
    (lines.enum.drop (lineMinOf location)).take
      (lineMaxOf location spanOffset lines.length - lineMinOf location)
  ("error: " ++ errFmt) ::
  ("-> " ++ path ++ ":" ++ toString (location.1 + 1) ++ ":" ++
    toString (location.2 + 1)) ::
  relevantLines.flatMap (fun p =>
    (padNum (p.1 + 1) ++ " | " ++ p.2) ::
    if p.1 = underlineLineOf location spanOffset
    then [underlineStr location spanOffset]
    else [])

/-- `TokenizerError` from the external `hf_parser_rust::token` module.
`pretty_print` reads only its `location` field; the `span` field (the
spec's SourceSpan carried by a TokenizeFailure) and the `msg` field
standing for its `Debug` rendering are carried but, for the span, never
consulted by the renderer — `src/compile.rs` line 45 hardcodes `(0, 1)`. -/
structure TokenizerError : Type where
  location : Nat × Nat
  span : Nat × Nat
  msg : String
deriving DecidableEq

/-- `SyntaxError` from the external `hf_parser_rust::ast` module, as used
by `pretty_print`: a `location`, the result of its `span()` method, and a
`msg` standing for its `Debug` rendering. -/
structure SyntaxError : Type where
  location : Nat × Nat
  span : Nat × Nat
  msg : String
deriving DecidableEq

/-- `std::io::Error`, reduced to its `Display` rendering. -/
structure IoError : Type where
  msg : String
deriving DecidableEq

/-- `CompilerError` from the external `hf_codegen::compiler` module,
reduced to its `Debug` rendering. -/
structure CompilerError : Type where
  msg : String
deriving DecidableEq

/-- `enum CompilationError` from `src/compile.rs` lines 9-22. -/
inductive CompilationError : Type where
  | IoError (e : IoError)
  | TokenizerError (e : TokenizerError)
  | AstBuilderError (e : SyntaxError)
  | CompilerError (e : CompilerError)
deriving DecidableEq

/-- `CompilationError::pretty_print` (`src/compile.rs` lines 25-94) as the
list of lines written to stderr.  IO and compiler errors print a single
line and return early; tokenizer and AST errors render the source-context
block, the tokenizer case with the hardcoded span `(0, 1)`. -/
def prettyPrint (err : CompilationError) (path code : String) : List String :=
  match err with
  | .IoError e => ["IO error: " ++ e.msg]
  | .CompilerError e => ["Compiler error: " ++ e.msg]
  | .TokenizerError e => prettyPrintSrc path code e.location (0, 1) e.msg
  | .AstBuilderError e => prettyPrintSrc path code e.location e.span e.msg

/-- C8: whenever the diagnostic's location satisfies the data-model
invariant `location.line < total_lines`, the display window computed by the
renderer is well-formed — `line_min ≤ line_max ≤ total_lines` — so the
unsigned subtraction `line_max - line_min` feeding `take` never
underflows, for any span offset and in particular at both boundary lines. -/
theorem C8_window_wellformed (location spanOffset : Nat × Nat)
    (code : String) (h : location.1 < (rustLines code).length) :
    lineMinOf location ≤ lineMaxOf location spanOffset (rustLines code).length ∧
    lineMaxOf location spanOffset (rustLines code).length ≤
      (rustLines code).length := by
  unfold lineMinOf lineMaxOf underlineLineOf
  omega

/-- Witness for C8 at both boundary locations of a 3-line source:
`line = 0` and `line = total_lines - 1`. -/
theorem C8_window_wellformed_witness :
    (0 : Nat) < (rustLines "a\nb\nc").length ∧
    (2 : Nat) < (rustLines "a\nb\nc").length ∧
    (lineMinOf (0, 0) ≤ lineMaxOf (0, 0) (0, 1) (rustLines "a\nb\nc").length ∧
      lineMaxOf (0, 0) (0, 1) (rustLines "a\nb\nc").length ≤
        (rustLines "a\nb\nc").length) ∧
    (lineMinOf (2, 7) ≤ lineMaxOf (2, 7) (1, 4) (rustLines "a\nb\nc").length ∧
      lineMaxOf (2, 7) (1, 4) (rustLines "a\nb\nc").length ≤
        (rustLines "a\nb\nc").length) :=
  ⟨by decide, by decide,
   C8_window_wellformed (0, 0) (0, 1) "a\nb\nc" (by decide),
   C8_window_wellformed (2, 7) (1, 4) "a\nb\nc" (by decide)⟩

/-- Counterexample to C2: a tokenize failure at location `(3, 5)` carrying
span `(0, 2)` over a 10-line source renders 6 carets (the renderer
hardcodes span width 1 for tokenize failures, giving `column + 1`) and the
window `[1, 6)`, not the claimed 7 carets and window `[1, min(10, 7)) =
[1, 7)`. -/
theorem C2_counterexample :
    prettyPrint (.TokenizerError ⟨(3, 5), (0, 2), "tok"⟩) "f.hf"
        "a0\na1\na2\na3\na4\na5\na6\na7\na8\na9" =
      ["error: tok", "-> f.hf:4:6",
       "   2 | a1", "   3 | a2", "   4 | a3",
       "     |      ^^^^^^",
       "   5 | a4", "   6 | a5"] ∧
    (rustLines "a0\na1\na2\na3\na4\na5\na6\na7\na8\na9").length = 10 ∧
    prettyPrint (.TokenizerError ⟨(3, 5), (0, 2), "tok"⟩) "f.hf"
        "a0\na1\na2\na3\na4\na5\na6\na7\na8\na9" ≠
      ["error: tok", "-> f.hf:4:6",
       "   2 | a1", "   3 | a2", "   4 | a3",
       "     |      ^^^^^^^",
       "   5 | a4", "   6 | a5", "   7 | a6"] := by
  refine ⟨by decide, by decide, by decide⟩

/-- The display window taken from the enumerated source lines is exactly
the index range `[a, a + b)` paired with the corresponding lines, whenever
the window fits inside the source. -/
theorem enum_window_eq_range' (l : List String) (a b : Nat)
    (h : a + b ≤ l.length) :
    (l.enum.drop a).take b = (List.range' a b).map (fun i => (i, l.getD i "")) := by
  apply List.ext_getElem?
  intro k
  rw [List.getElem?_take, List.getElem?_drop, List.getElem?_enum, List.getElem?_map]
  by_cases hk : k < b
  · rw [if_pos hk, List.getElem?_range' _ _ hk]
    have hlen : a + k < l.length := by omega
    rw [List.getElem?_eq_getElem hlen]
    simp [List.getD_eq_getElem?_getD, List.getElem?_eq_getElem hlen]
  · rw [if_neg hk]
    have hn : (List.range' a b)[k]? = none := by
      rw [List.getElem?_eq_none]
      simp [List.length_range']
      omega
    rw [hn]
    rfl

/-- C2 (amended): for a tokenize failure at location `(3, 5)`, whatever
span the error carries, the renderer underlines zero-based line index 3,
the underline is 5 leading spaces followed by exactly 6 carets
(`column + 1`: the renderer substitutes the fixed span `(0, 1)` for
tokenize failures, ignoring the carried span), and the displayed window is
the zero-based line range `[1, min(total_lines, 6))`. -/
theorem C2_tokenize_render (span : Nat × Nat) (msg path code : String)
    (h : 3 < (rustLines code).length) :
    prettyPrint (.TokenizerError ⟨(3, 5), span, msg⟩) path code =
      ("error: " ++ msg) ::
      ("-> " ++ path ++ ":" ++ toString 4 ++ ":" ++ toString 6) ::
      (List.range' 1 (min 6 (rustLines code).length - 1)).flatMap (fun i =>
        (padNum (i + 1) ++ " | " ++ (rustLines code).getD i "") ::
        if i = 3
        then ["     | " ++ String.mk (List.replicate 5 ' ' ++ List.replicate 6 '^')]
        else []) := by
  have key : ((rustLines code).enum.drop 1).take (min 6 (rustLines code).length - 1)
      = (List.range' 1 (min 6 (rustLines code).length - 1)).map
          (fun i => (i, (rustLines code).getD i "")) := by
    apply enum_window_eq_range'
    omega
  show ("error: " ++ msg) ::
      ("-> " ++ path ++ ":" ++ toString 4 ++ ":" ++ toString 6) ::
      (((rustLines code).enum.drop 1).take (min 6 (rustLines code).length - 1)).flatMap
        (fun p =>
          (padNum (p.1 + 1) ++ " | " ++ p.2) ::
          if p.1 = 3
          then ["     | " ++ String.mk (List.replicate 5 ' ' ++ List.replicate 6 '^')]
          else []) = _
  rw [key, List.flatMap_map]

/-- Witness for the amended C2 at a 10-line source, carrying the claim's
span `(0, 2)`. -/
theorem C2_tokenize_render_witness :
    3 < (rustLines "a0\na1\na2\na3\na4\na5\na6\na7\na8\na9").length ∧
    prettyPrint (.TokenizerError ⟨(3, 5), (0, 2), "tok"⟩) "f.hf"
        "a0\na1\na2\na3\na4\na5\na6\na7\na8\na9" =
      ("error: " ++ "tok") ::
      ("-> " ++ "f.hf" ++ ":" ++ toString 4 ++ ":" ++ toString 6) ::
      (List.range' 1
          (min 6 (rustLines "a0\na1\na2\na3\na4\na5\na6\na7\na8\na9").length - 1)).flatMap
        (fun i =>
          (padNum (i + 1) ++ " | " ++
            (rustLines "a0\na1\na2\na3\na4\na5\na6\na7\na8\na9").getD i "") ::
          if i = 3
          then ["     | " ++ String.mk (List.replicate 5 ' ' ++ List.replicate 6 '^')]
          else []) :=
  ⟨by decide,
   C2_tokenize_render (0, 2) "tok" "f.hf" "a0\na1\na2\na3\na4\na5\na6\na7\na8\na9"
     (by decide)⟩

/-! ## Pipeline orchestrator (`src/compile.rs`, `compile`) -/

/-- The token sequence produced by the external tokenizer; opaque to this
core, carried through unchanged. -/
structure Tokens : Type where
  tag : Nat
deriving DecidableEq

/-- The syntax tree produced by the external parser; opaque to this core. -/
structure Ast : Type where
  tag : Nat
deriving DecidableEq

/-- The intermediate representation produced by `hf_codegen::ir::from_ast`;
opaque to this core. -/
structure Ir : Type where
  tag : Nat
deriving DecidableEq

/-- The in-memory object artifact produced by the code generator; opaque
to this core. -/
structure ObjectFile : Type where
  tag : Nat
deriving DecidableEq

/-- The `PathBuf` handed to `compile`, reduced to the three views the
function takes of it: its display form, the lossy UTF-8 rendering of its
final file-name component (`None` when the path has no such component,
e.g. a path ending in `..`), and the display form of
`path.with_extension("o")`. -/
structure RustPath : Type where
  display : String
  fileName : Option String
  withExtO : String
deriving DecidableEq

/-- The external collaborator services consumed by `compile`: the
filesystem read, the tokenizer, the parser, the (total) lowering, the code
generator already parameterized by target and settings, the artifact's
serialization, and the filesystem write. -/
structure CompileEnv : Type where
  readToString : String → Except IoError String
  tokenize : String → Except TokenizerError Tokens
  buildAst : Tokens → Except SyntaxError Ast
  fromAst : Ast → Ir
  compileToObjectFile : Ir → String → Except CompilerError ObjectFile
  objWrite : ObjectFile → Except String (List Nat)
  fsWrite : String → List Nat → Except String Unit

/-- The externally visible effects of one `compile` call: every
`pretty_print` invocation (the diagnostic together with the stderr lines it
renders), every call into the code generator (the IR and module name
passed), and every filesystem write attempted (target path and bytes). -/
structure CompileTrace : Type where
  rendered : List (CompilationError × List String)
  codegenCalls : List (Ir × String)
  writes : List (String × List Nat)
deriving DecidableEq

/-- `compile` (`src/compile.rs` lines 97-146): read the file, tokenize,
build the AST, lower, run codegen with the module name taken from the
path's file-name component (empty when absent), serialize and write the
object file.  Tokenizer and AST failures call `pretty_print` before
returning; IO and codegen failures return via `map_err(..)?` directly.
The two `.expect(...)` calls on the final write path are `panicked`
outcomes. -/
def compile (env : CompileEnv) (path : RustPath) :
    RustOutcome CompilationError Unit × CompileTrace :=
  match env.readToString path.display with
  | .error e => (.err (.IoError e), ⟨[], [], []⟩)
  | .ok code =>
    match env.tokenize code with
    | .error e =>
      let ce := CompilationError.TokenizerError e
      (.err ce, ⟨[(ce, prettyPrint ce path.display code)], [], []⟩)
    | .ok tokens =>
      match env.buildAst tokens with
      | .error e =>
        let ce := CompilationError.AstBuilderError e
        (.err ce, ⟨[(ce, prettyPrint ce path.display code)], [], []⟩)
      | .ok ast =>
        let ir := env.fromAst ast
        let moduleName := path.fileName.getD ""
        match env.compileToObjectFile ir moduleName with
        | .error e => (.err (.CompilerError e), ⟨[], [(ir, moduleName)], []⟩)
        | .ok obj =>
          match env.objWrite obj with
          | .error _ =>
            (.panicked "Failed to write object file to buffer!",
              ⟨[], [(ir, moduleName)], []⟩)
          | .ok raw =>
            match env.fsWrite path.withExtO raw with
            | .error _ =>
              (.panicked "Failed to write object file!",
                ⟨[], [(ir, moduleName)], [(path.withExtO, raw)]⟩)
            | .ok _ =>
              (.ok (), ⟨[], [(ir, moduleName)], [(path.withExtO, raw)]⟩)

/-- An environment in which every pipeline stage succeeds, used to
instantiate `compile` at closed inputs. -/
def envOk : CompileEnv :=
  ⟨fun _ => .ok "src", fun _ => .ok ⟨0⟩, fun _ => .ok ⟨0⟩, fun _ => ⟨0⟩,
   fun _ _ => .ok ⟨0⟩, fun _ => .ok [1, 2], fun _ _ => .ok ()⟩

/-- `envOk` with a failing filesystem read. -/
def envIoFail : CompileEnv :=
  ⟨fun _ => .error ⟨"nope"⟩, envOk.tokenize, envOk.buildAst, envOk.fromAst,
   envOk.compileToObjectFile, envOk.objWrite, envOk.fsWrite⟩

/-- `envOk` with a failing tokenizer. -/
def envTokFail : CompileEnv :=
  ⟨envOk.readToString, fun _ => .error ⟨(0, 0), (0, 1), "bad token"⟩,
   envOk.buildAst, envOk.fromAst, envOk.compileToObjectFile, envOk.objWrite,
   envOk.fsWrite⟩

/-- `envOk` with a failing code generator. -/
def envCodegenFail : CompileEnv :=
  ⟨envOk.readToString, envOk.tokenize, envOk.buildAst, envOk.fromAst,
   fun _ _ => .error ⟨"cg"⟩, envOk.objWrite, envOk.fsWrite⟩

/-- A path with a final file-name component. -/
def pathA : RustPath := ⟨"dir/file.hf", some "file.hf", "dir/file.o"⟩

/-- A path without a final file-name component (it ends in `..`). -/
def pathNoName : RustPath := ⟨"dir/..", none, "dir/...o"⟩

/-- Counterexample to C1: when the filesystem read fails, `compile`
returns the `IoFailure` diagnostic without ever invoking `pretty_print` —
the rendered-diagnostics trace is empty. -/
theorem C1_counterexample :
    (compile envIoFail pathA).1 = .err (.IoError ⟨"nope"⟩) ∧
    (compile envIoFail pathA).2.rendered = [] :=
  ⟨rfl, rfl⟩

/-- C1 (amended): a failing `compile` invokes `pretty_print` on the
resulting diagnostic at the failure point, before returning it, exactly
when the failure is a `TokenizeFailure` or a `ParseFailure`; an
`IoFailure` or `CodegenFailure` is returned through `map_err(..)?` with no
renderer invocation at all. -/
theorem C1_render_policy (env : CompileEnv) (path : RustPath)
    (ce : CompilationError) (h : (compile env path).1 = .err ce) :
    ((∃ e, ce = .IoError e) ∨ (∃ e, ce = .CompilerError e) →
      (compile env path).2.rendered = []) ∧
    ((∃ e, ce = .TokenizerError e) ∨ (∃ e, ce = .AstBuilderError e) →
      ∃ code, env.readToString path.display = .ok code ∧
        (compile env path).2.rendered = [(ce, prettyPrint ce path.display code)]) := by
  rcases hr : env.readToString path.display with e | code
  · have hc : compile env path = (.err (.IoError e), ⟨[], [], []⟩) := by
      simp [compile, hr]
    rw [hc] at h
    simp only [RustOutcome.err.injEq] at h
    subst h
    rw [hc]
    refine ⟨fun _ => rfl, ?_⟩
    rintro (⟨e', he'⟩ | ⟨e', he'⟩) <;> simp at he'
  · rcases ht : env.tokenize code with e | tokens
    · have hc : compile env path =
          (.err (.TokenizerError e),
            ⟨[(.TokenizerError e, prettyPrint (.TokenizerError e) path.display code)],
             [], []⟩) := by
        simp [compile, hr, ht]
      rw [hc] at h
      simp only [RustOutcome.err.injEq] at h
      subst h
      rw [hc]
      refine ⟨?_, fun _ => ⟨code, rfl, rfl⟩⟩
      rintro (⟨e', he'⟩ | ⟨e', he'⟩) <;> simp at he'
    · rcases ha : env.buildAst tokens with e | ast
      · have hc : compile env path =
            (.err (.AstBuilderError e),
              ⟨[(.AstBuilderError e, prettyPrint (.AstBuilderError e) path.display code)],
               [], []⟩) := by
          simp [compile, hr, ht, ha]
        rw [hc] at h
        simp only [RustOutcome.err.injEq] at h
        subst h
        rw [hc]
        refine ⟨?_, fun _ => ⟨code, rfl, rfl⟩⟩
        rintro (⟨e', he'⟩ | ⟨e', he'⟩) <;> simp at he'
      · rcases hcg : env.compileToObjectFile (env.fromAst ast) (path.fileName.getD "")
          with e | obj
        · have hc : compile env path =
              (.err (.CompilerError e),
                ⟨[], [(env.fromAst ast, path.fileName.getD "")], []⟩) := by
            simp [compile, hr, ht, ha, hcg]
          rw [hc] at h
          simp only [RustOutcome.err.injEq] at h
          subst h
          rw [hc]
          refine ⟨fun _ => rfl, ?_⟩
          rintro (⟨e', he'⟩ | ⟨e', he'⟩) <;> simp at he'
        · rcases hw : env.objWrite obj with m | raw
          · have hc : (compile env path).1 =
                .panicked "Failed to write object file to buffer!" := by
              simp [compile, hr, ht, ha, hcg, hw]
            rw [hc] at h
            simp at h
          · rcases hf : env.fsWrite path.withExtO raw with m | u
            · have hc : (compile env path).1 = .panicked "Failed to write object file!" := by
                simp [compile, hr, ht, ha, hcg, hw, hf]
              rw [hc] at h
              simp at h
            · have hc : (compile env path).1 = .ok () := by
                simp [compile, hr, ht, ha, hcg, hw, hf]
              rw [hc] at h
              simp at h

/-- Witness for the amended C1: a tokenizer failure is rendered exactly
once before being returned. -/
theorem C1_render_policy_witness :
    (compile envTokFail pathA).1 =
      .err (.TokenizerError ⟨(0, 0), (0, 1), "bad token"⟩) ∧
    (∃ code, envTokFail.readToString pathA.display = .ok code ∧
      (compile envTokFail pathA).2.rendered =
        [(.TokenizerError ⟨(0, 0), (0, 1), "bad token"⟩,
          prettyPrint (.TokenizerError ⟨(0, 0), (0, 1), "bad token"⟩)
            pathA.display code)]) :=
  ⟨rfl,
   (C1_render_policy envTokFail pathA
       (.TokenizerError ⟨(0, 0), (0, 1), "bad token"⟩) rfl).2
     (Or.inl ⟨⟨(0, 0), (0, 1), "bad token"⟩, rfl⟩)⟩

/-- C9: a `compile` call that returns an error has attempted no filesystem
write — the single write of the output object happens only after every
pipeline stage has succeeded — and no call ever attempts more than one
write. -/
theorem C9_no_write_on_error (env : CompileEnv) (path : RustPath) :
    (∀ ce, (compile env path).1 = .err ce → (compile env path).2.writes = []) ∧
    (compile env path).2.writes.length ≤ 1 := by
  rcases hr : env.readToString path.display with e | code
  · simp [compile, hr]
  · rcases ht : env.tokenize code with e | tokens
    · simp [compile, hr, ht]
    · rcases ha : env.buildAst tokens with e | ast
      · simp [compile, hr, ht, ha]
      · rcases hcg : env.compileToObjectFile (env.fromAst ast) (path.fileName.getD "")
          with e | obj
        · simp [compile, hr, ht, ha, hcg]
        · rcases hw : env.objWrite obj with m | raw
          · simp [compile, hr, ht, ha, hcg, hw]
          · rcases hf : env.fsWrite path.withExtO raw with m | u
            · simp [compile, hr, ht, ha, hcg, hw, hf]
            · simp [compile, hr, ht, ha, hcg, hw, hf]

/-- Witness for C9: a codegen failure returns an error with an empty write
trace. -/
theorem C9_no_write_on_error_witness :
    (compile envCodegenFail pathA).1 = .err (.CompilerError ⟨"cg"⟩) ∧
    (compile envCodegenFail pathA).2.writes = [] :=
  ⟨rfl,
   (C9_no_write_on_error envCodegenFail pathA).1 (.CompilerError ⟨"cg"⟩) rfl⟩

/-- C10: once reading, tokenizing and parsing succeed, `compile` calls the
code generator exactly once, passing as module name the lossy UTF-8
rendering of the path's final file-name component, or the empty string
when the path has none (`Option.getD`: `none` gives `""`, `some s` gives
`s`). -/
theorem C10_module_name (env : CompileEnv) (path : RustPath)
    (code : String) (tokens : Tokens) (ast : Ast)
    (hr : env.readToString path.display = .ok code)
    (ht : env.tokenize code = .ok tokens)
    (ha : env.buildAst tokens = .ok ast) :
    (compile env path).2.codegenCalls =
      [(env.fromAst ast, path.fileName.getD "")] ∧
    (path.fileName = none → path.fileName.getD "" = "") ∧
    (∀ s, path.fileName = some s → path.fileName.getD "" = s) := by
  refine ⟨?_, fun h => by rw [h]; rfl, fun s h => by rw [h]; rfl⟩
  rcases hcg : env.compileToObjectFile (env.fromAst ast) (path.fileName.getD "")
    with e | obj
  · simp [compile, hr, ht, ha, hcg]
  · rcases hw : env.objWrite obj with m | raw
    · simp [compile, hr, ht, ha, hcg, hw]
    · rcases hf : env.fsWrite path.withExtO raw with m | u
      · simp [compile, hr, ht, ha, hcg, hw, hf]
      · simp [compile, hr, ht, ha, hcg, hw, hf]

/-- Witness for C10 at a path ending in `..`, which has no file-name
component: the code generator receives the empty module name. -/
theorem C10_module_name_witness :
    envOk.readToString pathNoName.display = .ok "src" ∧
    envOk.tokenize "src" = .ok ⟨0⟩ ∧
    envOk.buildAst ⟨0⟩ = .ok ⟨0⟩ ∧
    pathNoName.fileName = none ∧
    (compile envOk pathNoName).2.codegenCalls =
      [(envOk.fromAst ⟨0⟩, pathNoName.fileName.getD "")] ∧
    pathNoName.fileName.getD "" = "" :=
  ⟨rfl, rfl, rfl, rfl,
   (C10_module_name envOk pathNoName "src" ⟨0⟩ ⟨0⟩ rfl rfl rfl).1,
   (C10_module_name envOk pathNoName "src" ⟨0⟩ ⟨0⟩ rfl rfl rfl).2.1 rfl⟩
